import Mathlib

/-!
Shallow embedding of `src/app.py` (WhatsApp-Business-Bot): the session map
with duplicate suppression and periodic sweep (`WhatsAppBot`), the keyword
response logic (`generate_response`), and the webhook adapter
(`handle_webhook`).  Timestamps are integers counting microseconds, the
resolution of Python `datetime`; `tdSeconds` models the `.seconds` field of
a Python `timedelta`, which is the seconds *component* (mod one day), not
the total elapsed seconds.
-/

set_option autoImplicit false
set_option maxRecDepth 40000

/-- Python `(a - b).seconds` for `datetime` values `a`, `b` given in
microseconds: floor-divide the difference by 10^6 and take the
representative mod 86400 (the `timedelta` seconds component). -/
def tdSeconds (a b : Int) : Int :=
  ((a - b).fdiv 1000000).emod 86400

/-- Python whitespace stripped by `str.strip()` (ASCII subset). -/
def pyIsSpace (c : Char) : Bool :=
  c == ' ' || c == '\t' || c == '\n' || c == '\r' || c == '\x0b' || c == '\x0c'

/-- Python `str.lower()` on the character list (ASCII-adequate). -/
def pyLower (s : List Char) : List Char :=
  s.map Char.toLower

/-- Python `str.strip()`: drop leading and trailing whitespace. -/
def pyStrip (s : List Char) : List Char :=
  ((s.dropWhile pyIsSpace).reverse.dropWhile pyIsSpace).reverse

/-- Does `s` start with `kw`? -/
def startsWithCh : List Char → List Char → Bool
  | [], _ => true
  | _ :: _, [] => false
  | k :: ks, c :: cs => k == c && startsWithCh ks cs

/-- Python `kw in s` for strings: `kw` occurs as a contiguous substring. -/
def occursIn (kw : List Char) : List Char → Bool
  | [] => startsWithCh kw []
  | c :: rest => startsWithCh kw (c :: rest) || occursIn kw rest

/-- Python `any(word in message for word in words)`. -/
def containsAny (msg : List Char) (words : List String) : Bool :=
  words.any fun w => occursIn w.toList msg

/-- Python `s.replace(p :: ps, "")` for a nonempty pattern: delete every
non-overlapping occurrence, scanning left to right.  Structural recursion
on a fuel argument; each step consumes at least one character, so any
`fuel ≥ s.length` computes the untruncated scan. -/
def removeOccFuel (p : Char) (ps : List Char) : Nat → List Char → List Char
  | _, [] => []
  | 0, s => s
  | fuel + 1, c :: rest =>
    if startsWithCh (p :: ps) (c :: rest) then
      removeOccFuel p ps fuel (rest.drop ps.length)
    else
      c :: removeOccFuel p ps fuel rest

/-- Python `s.replace(p :: ps, "")` with the fuel instantiated. -/
def removeAllOcc (p : Char) (ps : List Char) (s : List Char) : List Char :=
  removeOccFuel p ps s.length s

/-- Python `s.replace(pat, "")`; the empty-pattern case is unreachable in
this program (the only pattern used is `"whatsapp:"`). -/
def pyReplaceEmpty (pat s : List Char) : List Char :=
  match pat with
  | [] => s
  | p :: ps => removeAllOcc p ps s

/-- First lookup by key in an insertion-ordered association list
(Python `dict[key]` / `key in dict`). -/
def lookupKey (k : String) : List (String × Int) → Option Int
  | [] => none
  | (k2, v) :: rest => if k2 == k then some v else lookupKey k rest

/-- Python `dict[key] = value`: overwrite in place if the key exists
(keeping its position), otherwise append. -/
def setKey (k : String) (v : Int) : List (String × Int) → List (String × Int)
  | [] => [(k, v)]
  | (k2, v2) :: rest =>
    if k2 == k then (k2, v) :: rest else (k2, v2) :: setKey k v rest

/-- The mutable state of `WhatsAppBot`: the `user_sessions` dict
(sender ↦ timestamp of last accepted message, insertion-ordered) and the
`last_cleanup` timestamp. -/
structure BotState where
  user_sessions : List (String × Int)
  last_cleanup : Int
deriving DecidableEq

/-- `WhatsAppBot.cleanup_old_sessions`, with `now` (the `datetime.now()`
inside the method) passed explicitly: if `(now - last_cleanup).seconds >
300`, delete every entry with `(now - last_time).seconds > 300` and set
`last_cleanup` to `now`. -/
def cleanup_old_sessions (now : Int) (st : BotState) : BotState :=
  if tdSeconds now st.last_cleanup > 300 then
    { user_sessions :=
        st.user_sessions.filter fun p => !(decide (tdSeconds now p.2 > 300)),
      last_cleanup := now }
  else
    st

def get_welcome_message : String :=
  "🤖 **Welcome!** 🎉\n\nI\x27m your virtual assistant. How can I help?\n\n📋 **Quick Options:**\n1. View Menu/Products\n2. Book Appointment/Order\n3. Contact Information  \n4. Business Hours\n\nType the number or ask your question!"

def get_default_response : String :=
  "🤖 Thanks for your message! 💌\n\nPlease choose:\n1. MENU - View products/services\n2. BOOKING - Make appointment\n3. CONTACT - Get details\n4. TIME - Business hours\n\nOr ask directly!"

def get_menu : String :=
  "📋 **OUR MENU** 📋\n\n🍔 **FOOD ITEMS:**\n• Burger - ₹120\n• Pizza - ₹250  \n• Fries - ₹80\n• Cold Drink - ₹50\n\n💇 **SERVICES:**\n• Haircut - ₹300\n• Facial - ₹500\n• Massage - ₹700\n\n💄 **PRODUCTS:**\n• Shampoo - ₹200\n• Cream - ₹150\n\n📅 *Type \x27BOOKING\x27 to order!*"

def get_booking_info : String :=
  "📅 **BOOK AN APPOINTMENT**\n\n🕒 **Hours:** Mon-Sat: 9AM - 9PM, Sun: 10AM - 6PM\n📍 **Location:** 123 Business Street\n📞 **Call:** +92-XXXXX-XXXXX\n💻 **Online:** https://your-business.com/bookings"

def get_contact_info : String :=
  "📞 **CONTACT US**\n\n📍 **Address:** 123 Business Street, City\n📱 **Phone:** +92-XXXXX-XXXXX\n📧 **Email:** info@business.com\n🌐 **Website:** https://your-business.com\n🕒 **Hours:** Mon-Sat: 9AM-9PM, Sun: 10AM-6PM"

def get_business_hours : String :=
  "🕒 **BUSINESS HOURS**\n\n• Mon-Fri: 9:00 AM - 9:00 PM\n• Saturday: 9:00 AM - 9:00 PM  \n• Sunday: 10:00 AM - 6:00 PM\n\n📞 **For special timing:** +92-XXXXX-XXXXX"

def thanks_reply : String :=
  "You\x27re welcome! 😊 Let me know if you need anything else!"

def farewell_reply : String :=
  "Thank you for visiting! 🙏\nAllah Hafiz!"

/-- The `# Response logic` if/elif chain of `generate_response`, applied to
the already-normalized message. -/
def responseLogic (message : List Char) : String :=
  if containsAny message ["menu", "1", "khana", "rate", "price", "charges"] then
    get_menu
  else if containsAny message ["booking", "appointment", "2", "order", "delivery"] then
    get_booking_info
  else if containsAny message ["contact", "3", "number", "phone", "address"] then
    get_contact_info
  else if containsAny message ["time", "hour", "4", "baje", "open", "close"] then
    get_business_hours
  else if containsAny message ["hello", "hi", "hey", "salam", "assalam"] then
    get_welcome_message
  else if containsAny message ["thanks", "thank", "shukriya"] then
    thanks_reply
  else if containsAny message ["bye", "goodbye", "allah hafiz"] then
    farewell_reply
  else
    get_default_response

/-- `WhatsAppBot.generate_response`.  The two `datetime.now()` calls of the
Python method (one inside `cleanup_old_sessions`, one for `current_time`)
are passed explicitly as `t1` and `t2`.  Returns `none` for the suppressed
(duplicate) outcome, `some reply` otherwise, paired with the new state. -/
def generate_response (message from_number : String) (t1 t2 : Int)
    (st : BotState) : Option String × BotState :=
  let msg := pyStrip (pyLower message.toList)
  let st1 := cleanup_old_sessions t1 st
  match lookupKey from_number st1.user_sessions with
  | some last_time =>
    if tdSeconds t2 last_time < 2 then
      (none, st1)
    else
      (some (responseLogic msg),
        { st1 with user_sessions := setKey from_number t2 st1.user_sessions })
  | none =>
    (some (responseLogic msg),
      { st1 with user_sessions := setKey from_number t2 st1.user_sessions })

/-- `request.form.get('From', '').replace('whatsapp:', '')`. -/
def extractSender (fromField : Option String) : String :=
  String.mk (pyReplaceEmpty ("whatsapp:").toList (fromField.getD "").toList)

/-- `request.form.get('Body', '')`. -/
def extractBody (bodyField : Option String) : String :=
  bodyField.getD ""

/-- An HTTP response body of the adapter: either plain error text, or the
provider reply envelope.  Modelled from the spec: the envelope (Twilio
`MessagingResponse`, an external collaborator) is a wrapper carrying zero
or one message bodies. -/
inductive HttpBody where
  | text (s : String)
  | envelope (messages : List String)
deriving DecidableEq

/-- The menu/pricing trigger set (category 1 of the spec). -/
def menuTriggers : List String :=
  ["menu", "1", "khana", "rate", "price", "charges"]

/-- Modelled from the spec: the ordered `KeywordCategory` list of §4.1,
trigger sets paired with their canned replies, menu first. -/
def specCategories : List (List String × String) :=
  [(menuTriggers, get_menu),
   (["booking", "appointment", "2", "order", "delivery"], get_booking_info),
   (["contact", "3", "number", "phone", "address"], get_contact_info),
   (["time", "hour", "4", "baje", "open", "close"], get_business_hours),
   (["hello", "hi", "hey", "salam", "assalam"], get_welcome_message),
   (["thanks", "thank", "shukriya"], thanks_reply),
   (["bye", "goodbye", "allah hafiz"], farewell_reply)]

/-- Modelled from the spec: first category whose trigger set matches wins;
no match yields the default/help text. -/
def firstMatch : List (List String × String) → List Char → String
  | [], _ => get_default_response
  | (ws, reply) :: rest, msg =>
    if containsAny msg ws then reply else firstMatch rest msg

/-- Modelled from the spec: the §4.1 matching contract on a normalized
message. -/
def specMatch (msg : List Char) : String :=
  firstMatch specCategories msg

/-- `handle_webhook`: extract sender and body from the form fields, return
HTTP 400 `"Missing data"` when either is empty, otherwise call the
responder and wrap its outcome (empty envelope when suppressed, one-message
envelope otherwise) with HTTP 200. -/
def handle_webhook (fromField bodyField : Option String) (t1 t2 : Int)
    (st : BotState) : (HttpBody × Nat) × BotState :=
  let from_number := extractSender fromField
  let message_body := extractBody bodyField
  if from_number = "" ∨ message_body = "" then
    ((HttpBody.text "Missing data", 400), st)
  else
    match generate_response message_body from_number t1 t2 st with
    | (none, st2) => ((HttpBody.envelope [], 200), st2)
    | (some r, st2) => ((HttpBody.envelope [r], 200), st2)

/-! ## Substring lemmas -/

theorem startsWithCh_iff (kw : List Char) :
    ∀ s, startsWithCh kw s = true ↔ ∃ t, s = kw ++ t := by
  induction kw with
  | nil =>
    intro s
    simp [startsWithCh]
  | cons k ks ih =>
    intro s
    cases s with
    | nil =>
      simp [startsWithCh]
    | cons c cs =>
      simp only [startsWithCh, Bool.and_eq_true, beq_iff_eq, ih,
        List.cons_append, List.cons.injEq]
      constructor
      · rintro ⟨hk, t, ht⟩
        exact ⟨t, hk.symm, ht⟩
      · rintro ⟨t, hk, ht⟩
        exact ⟨hk.symm, t, ht⟩

theorem occursIn_iff (kw : List Char) :
    ∀ s, occursIn kw s = true ↔ ∃ a b, s = a ++ (kw ++ b) := by
  intro s
  induction s with
  | nil =>
    rw [occursIn, startsWithCh_iff]
    constructor
    · rintro ⟨t, ht⟩
      exact ⟨[], t, ht⟩
    · rintro ⟨a, b, hab⟩
      rcases List.append_eq_nil.mp hab.symm with ⟨rfl, h2⟩
      exact ⟨b, hab⟩
  | cons c cs ih =>
    rw [occursIn, Bool.or_eq_true, startsWithCh_iff, ih]
    constructor
    · rintro (⟨t, ht⟩ | ⟨a, b, hab⟩)
      · exact ⟨[], t, by simpa using ht⟩
      · exact ⟨c :: a, b, by simp [hab]⟩
    · rintro ⟨a, b, hab⟩
      cases a with
      | nil =>
        exact Or.inl ⟨b, by simpa using hab⟩
      | cons a0 as =>
        simp only [List.cons_append, List.cons.injEq] at hab
        exact Or.inr ⟨as, b, hab.2⟩

theorem occursIn_dropWhile (k : Char) (ks : List Char) (hk : pyIsSpace k = false) :
    ∀ s, occursIn (k :: ks) s = true →
      occursIn (k :: ks) (s.dropWhile pyIsSpace) = true := by
  intro s
  induction s with
  | nil =>
    intro h
    simp [occursIn, startsWithCh] at h
  | cons c cs ih =>
    intro h
    rw [occursIn, Bool.or_eq_true] at h
    by_cases hc : pyIsSpace c
    · rw [List.dropWhile_cons_of_pos hc]
      rcases h with h | h
      · exfalso
        rw [startsWithCh, Bool.and_eq_true, beq_iff_eq] at h
        rw [h.1] at hk
        rw [hk] at hc
        exact Bool.false_ne_true hc
      · exact ih h
    · rw [List.dropWhile_cons_of_neg hc]
      rw [occursIn, Bool.or_eq_true]
      exact h

theorem occursIn_reverse (kw s : List Char) (h : occursIn kw s = true) :
    occursIn kw.reverse s.reverse = true := by
  rw [occursIn_iff] at h ⊢
  obtain ⟨a, b, rfl⟩ := h
  exact ⟨b.reverse, a.reverse, by simp⟩

theorem occursIn_pyStrip (kw s : List Char) (hne : kw ≠ [])
    (hws : ∀ c ∈ kw, pyIsSpace c = false) (h : occursIn kw s = true) :
    occursIn kw (pyStrip s) = true := by
  obtain ⟨k, ks, rfl⟩ : ∃ k ks, kw = k :: ks := by
    cases kw with
    | nil => exact absurd rfl hne
    | cons k ks => exact ⟨k, ks, rfl⟩
  have h1 : occursIn (k :: ks) (s.dropWhile pyIsSpace) = true :=
    occursIn_dropWhile k ks (hws k (List.mem_cons_self k ks)) s h
  have h2 := occursIn_reverse (k :: ks) (s.dropWhile pyIsSpace) h1
  cases hkr : (k :: ks).reverse with
  | nil => simp at hkr
  | cons r rs =>
    have hrmem : r ∈ (k :: ks) := by
      rw [← List.mem_reverse, hkr]
      exact List.mem_cons_self r rs
    have hr : pyIsSpace r = false := hws r hrmem
    rw [hkr] at h2
    have h3 := occursIn_dropWhile r rs hr _ h2
    have h4 := occursIn_reverse (r :: rs) _ h3
    rw [← hkr, List.reverse_reverse] at h4
    exact h4

theorem containsAny_of_mem (msg : List Char) (words : List String) (w : String)
    (hw : w ∈ words) (h : occursIn w.toList msg = true) :
    containsAny msg words = true := by
  rw [containsAny, List.any_eq_true]
  exact ⟨w, hw, h⟩

theorem responseLogic_eq_specMatch (msg : List Char) :
    responseLogic msg = specMatch msg := by
  simp only [responseLogic, specMatch, specCategories, firstMatch, menuTriggers]

/-! ## Session-map lemmas -/

theorem lookupKey_filter_none (k : String) (p : String × Int → Bool) :
    ∀ l, lookupKey k l = none → lookupKey k (l.filter p) = none := by
  intro l
  induction l with
  | nil =>
    intro _
    rfl
  | cons e rest ih =>
    intro h
    obtain ⟨k2, v2⟩ := e
    rw [lookupKey] at h
    by_cases hk : (k2 == k) = true
    · rw [if_pos hk] at h
      exact absurd h (by simp)
    · rw [if_neg hk] at h
      rw [List.filter_cons]
      by_cases hp : p (k2, v2) = true
      · rw [if_pos hp, lookupKey, if_neg hk]
        exact ih h
      · rw [if_neg hp]
        exact ih h

theorem lookupKey_eq_none_of_not_mem (k : String) :
    ∀ l : List (String × Int), k ∉ l.map Prod.fst → lookupKey k l = none := by
  intro l
  induction l with
  | nil =>
    intro _
    rfl
  | cons e rest ih =>
    intro h
    obtain ⟨k2, v2⟩ := e
    simp only [List.map_cons, List.mem_cons, not_or] at h
    rw [lookupKey, if_neg]
    · exact ih h.2
    · simp only [beq_iff_eq]
      exact fun hk => h.1 (hk ▸ rfl)

theorem lookupKey_filter_some (k : String) (p : String × Int → Bool) (v : Int) :
    ∀ l, (l.map Prod.fst).Nodup → lookupKey k (l.filter p) = some v →
      lookupKey k l = some v := by
  intro l
  induction l with
  | nil =>
    intro _ h
    exact absurd h (by simp [lookupKey])
  | cons e rest ih =>
    intro hnd h
    obtain ⟨k2, v2⟩ := e
    simp only [List.map_cons, List.nodup_cons] at hnd
    rw [List.filter_cons] at h
    by_cases hk : (k2 == k) = true
    · have hkk : k2 = k := beq_iff_eq.mp hk
      by_cases hp : p (k2, v2) = true
      · rw [if_pos hp, lookupKey, if_pos hk] at h
        rw [lookupKey, if_pos hk]
        exact h
      · exfalso
        rw [if_neg hp] at h
        have hnone : lookupKey k rest = none :=
          lookupKey_eq_none_of_not_mem k rest (hkk ▸ hnd.1)
        rw [lookupKey_filter_none k p rest hnone] at h
        exact Option.noConfusion h
    · rw [lookupKey, if_neg hk]
      by_cases hp : p (k2, v2) = true
      · rw [if_pos hp, lookupKey, if_neg hk] at h
        exact ih hnd.2 h
      · rw [if_neg hp] at h
        exact ih hnd.2 h

theorem lookupKey_setKey_self (k : String) (v : Int) :
    ∀ l, lookupKey k (setKey k v l) = some v := by
  intro l
  induction l with
  | nil =>
    simp [setKey, lookupKey]
  | cons e rest ih =>
    obtain ⟨k2, v2⟩ := e
    rw [setKey]
    by_cases hk : (k2 == k) = true
    · rw [if_pos hk, lookupKey, if_pos hk]
    · rw [if_neg hk, lookupKey, if_neg hk]
      exact ih

theorem cleanup_lookup_none (k : String) (t : Int) (st : BotState)
    (h : lookupKey k st.user_sessions = none) :
    lookupKey k (cleanup_old_sessions t st).user_sessions = none := by
  rw [cleanup_old_sessions]
  split
  · exact lookupKey_filter_none k _ st.user_sessions h
  · exact h

/-! ## Replace (marker-removal) lemmas -/

theorem removeOccFuel_fuel_irrel (p : Char) (ps : List Char) :
    ∀ n s fuel, s.length ≤ fuel → s.length ≤ n →
      removeOccFuel p ps fuel s = removeOccFuel p ps n s := by
  intro n
  induction n with
  | zero =>
    intro s fuel hf hn
    have hs : s = [] := List.length_eq_zero.mp (Nat.le_zero.mp hn)
    subst hs
    cases fuel <;> rfl
  | succ m ih =>
    intro s fuel hf hn
    cases s with
    | nil =>
      cases fuel <;> rfl
    | cons c rest =>
      cases fuel with
      | zero =>
        exact absurd hf (by simp)
      | succ g =>
        simp only [List.length_cons, Nat.succ_le_succ_iff] at hf hn
        rw [removeOccFuel, removeOccFuel]
        by_cases hsw : startsWithCh (p :: ps) (c :: rest) = true
        · rw [if_pos hsw, if_pos hsw]
          have hlen : (rest.drop ps.length).length ≤ rest.length := by
            rw [List.length_drop]
            omega
          exact ih (rest.drop ps.length) g (le_trans hlen hf) (le_trans hlen hn)
        · rw [if_neg hsw, if_neg hsw]
          rw [ih rest g hf hn]

theorem removeAllOcc_append_self (p : Char) (ps rest : List Char) :
    removeAllOcc p ps ((p :: ps) ++ rest) = removeAllOcc p ps rest := by
  rw [removeAllOcc, List.cons_append, List.length_cons, removeOccFuel]
  rw [if_pos]
  · rw [List.drop_left]
    rw [removeAllOcc]
    exact removeOccFuel_fuel_irrel p ps rest.length rest ((ps ++ rest).length)
      (by simp) (le_refl _)
  · exact (startsWithCh_iff (p :: ps) ((p :: ps) ++ rest)).mpr ⟨rest, rfl⟩

theorem removeOccFuel_of_not_occursIn (p : Char) (ps : List Char) :
    ∀ s fuel, s.length ≤ fuel → occursIn (p :: ps) s = false →
      removeOccFuel p ps fuel s = s := by
  intro s
  induction s with
  | nil =>
    intro fuel _ _
    cases fuel <;> rfl
  | cons c rest ih =>
    intro fuel hf hocc
    cases fuel with
    | zero =>
      exact absurd hf (by simp)
    | succ g =>
      rw [occursIn, Bool.or_eq_false_iff] at hocc
      rw [removeOccFuel, if_neg (by simp [hocc.1])]
      simp only [List.length_cons, Nat.succ_le_succ_iff] at hf
      rw [ih g hf hocc.2]

theorem removeAllOcc_of_not_occursIn (p : Char) (ps s : List Char)
    (hocc : occursIn (p :: ps) s = false) : removeAllOcc p ps s = s :=
  removeOccFuel_of_not_occursIn p ps s s.length (le_refl _) hocc

/-! ## Shared result-shape lemmas -/

theorem generate_response_some_eq (message from_number : String) (t1 t2 : Int)
    (st st2 : BotState) (r : String)
    (h : generate_response message from_number t1 t2 st = (some r, st2)) :
    r = responseLogic (pyStrip (pyLower message.toList)) := by
  simp only [generate_response] at h
  split at h
  · split at h
    · exact absurd h (by simp)
    · simp only [Prod.mk.injEq, Option.some.injEq] at h
      exact h.1.symm
  · simp only [Prod.mk.injEq, Option.some.injEq] at h
    exact h.1.symm

theorem menuTriggers_wellformed :
    ∀ w ∈ menuTriggers, w.toList ≠ [] ∧ ∀ c ∈ w.toList, pyIsSpace c = false := by
  decide

/-- The set of canned replies `generate_response` can produce. -/
def allReplies : List String :=
  [get_menu, get_booking_info, get_contact_info, get_business_hours,
   get_welcome_message, thanks_reply, farewell_reply, get_default_response]

theorem responseLogic_mem_allReplies (msg : List Char) :
    responseLogic msg ∈ allReplies := by
  rw [responseLogic]
  split_ifs <;> simp [allReplies]

/-! ## Claims -/

/-- C1: fails on the code (failing-input evaluation).  With sender
`"alice"` stored 86401 seconds (one day + 1 s) in the past, the elapsed
time is not under 2 seconds, so per the claim the entry should be
overwritten and a reply produced; the code instead computes the Python
`timedelta.seconds` component `86401 % 86400 = 1 < 2`, returns the
suppressed outcome, and leaves the stored timestamp unchanged. -/
theorem c1_duplicate_window_day_wrap :
    generate_response "hello" "alice" 86401000000 86401000000
        ⟨[("alice", 0)], 86401000000⟩ =
      (none, ⟨[("alice", 0)], 86401000000⟩)
    ∧ (86401000000 : Int) - 0 ≥ 2 * 1000000 := by
  constructor
  · decide
  · decide

/-- C2: fails on the code (failing-input evaluation).  Two calls from the
fresh sender `"bob"` whose timestamps are 86401 seconds apart — more than
2 seconds — do not both get a reply: the first returns the welcome text,
but the second is suppressed because the `timedelta.seconds` component of
the gap wraps at one day to `1 < 2`. -/
theorem c2_spaced_calls_day_wrap :
    (generate_response "hi" "bob" 10000000 10000000 ⟨[], 10000000⟩).1 =
      some get_welcome_message
    ∧ generate_response "hi" "bob" 86411000000 86411000000
        (generate_response "hi" "bob" 10000000 10000000 ⟨[], 10000000⟩).2 =
        (none, ⟨[("bob", 10000000)], 10000000⟩)
    ∧ (86411000000 : Int) - 10000000 > 2 * 1000000 := by
  refine ⟨by decide, by decide, by decide⟩

/-- C4: fails on the code (failing-input evaluation).  A sweep whose
`last_cleanup` lies 301 seconds in the past does run and resets
`last_cleanup` to now, but the entry `"old"` — 86700 seconds (more than
300 seconds) old — survives it, because `(now - last_time).seconds` wraps
at one day to `86700 % 86400 = 300`, which is not `> 300`. -/
theorem c4_sweep_day_wrap :
    cleanup_old_sessions 86700000000 ⟨[("old", 0)], 86700000000 - 301000000⟩ =
      ⟨[("old", 0)], 86700000000⟩
    ∧ (86700000000 : Int) - 0 > 300 * 1000000 := by
  constructor
  · decide
  · decide

/-- C3: every non-suppressed call returns the first-match reply of the
spec's ordered categories (menu, booking, contact, hours, greeting,
thanks, farewell) applied to the lowercased, stripped message, with the
default/help text when no category matches; and any message containing a
menu trigger — in any case, with any surrounding whitespace, even
alongside a booking keyword — yields the menu text. -/
theorem c3_priority_matching :
    (∀ (message from_number : String) (t1 t2 : Int) (st st2 : BotState) (r : String),
        generate_response message from_number t1 t2 st = (some r, st2) →
        r = specMatch (pyStrip (pyLower message.toList)))
    ∧ (∀ (message from_number : String) (t1 t2 : Int) (st st2 : BotState)
        (r : String) (kw : String), kw ∈ menuTriggers →
        occursIn kw.toList (pyLower message.toList) = true →
        generate_response message from_number t1 t2 st = (some r, st2) →
        r = get_menu) := by
  constructor
  · intro m f t1 t2 st st2 r h
    rw [generate_response_some_eq m f t1 t2 st st2 r h]
    exact responseLogic_eq_specMatch _
  · intro m f t1 t2 st st2 r kw hkw hocc h
    have hprops := menuTriggers_wellformed kw hkw
    have hstrip := occursIn_pyStrip kw.toList _ hprops.1 hprops.2 hocc
    have hca : containsAny (pyStrip (pyLower m.toList)) menuTriggers = true :=
      containsAny_of_mem _ _ kw hkw hstrip
    rw [generate_response_some_eq m f t1 t2 st st2 r h,
      responseLogic_eq_specMatch]
    simp only [specMatch, specCategories, firstMatch]
    rw [if_pos hca]

/-- C3 witness: the message `"  MeNu order  "` — mixed case, surrounding
whitespace, and also containing the booking keyword `"order"` — gets the
menu text. -/
theorem c3_priority_matching_witness :
    (generate_response "  MeNu order  " "+1" 0 0 ⟨[], 0⟩).1 = some get_menu := by
  have h : generate_response "  MeNu order  " "+1" 0 0 ⟨[], 0⟩ =
      (some (responseLogic (pyStrip (pyLower ("  MeNu order  ").toList))),
        ⟨[("+1", 0)], 0⟩) := by
    decide
  have h2 := c3_priority_matching.2 "  MeNu order  " "+1" 0 0 ⟨[], 0⟩
    ⟨[("+1", 0)], 0⟩ (responseLogic (pyStrip (pyLower ("  MeNu order  ").toList)))
    "menu" (by decide) (by decide) h
  rw [h]
  exact congrArg some h2

/-- C8: `generate_response` is total — on every message, sender, pair of
timestamps and state it returns either the suppressed outcome or one of
the eight canned reply strings; no other outcome exists. -/
theorem c8_totality :
    ∀ (message from_number : String) (t1 t2 : Int) (st : BotState),
      (generate_response message from_number t1 t2 st).1 = none ∨
      ∃ r, (generate_response message from_number t1 t2 st).1 = some r ∧
        r ∈ allReplies := by
  intro m f t1 t2 st
  simp only [generate_response]
  split
  · split
    · exact Or.inl rfl
    · exact Or.inr ⟨_, rfl, responseLogic_mem_allReplies _⟩
  · exact Or.inr ⟨_, rfl, responseLogic_mem_allReplies _⟩

/-- C9: a sender with no session entry (first-ever message, or message
after its entry was swept) is never suppressed: the call returns a reply
string and creates a session entry for that sender carrying the current
timestamp. -/
theorem c9_fresh_sender :
    ∀ (message from_number : String) (t1 t2 : Int) (st : BotState),
      lookupKey from_number st.user_sessions = none →
      (generate_response message from_number t1 t2 st).1 =
          some (responseLogic (pyStrip (pyLower message.toList)))
      ∧ lookupKey from_number
          (generate_response message from_number t1 t2 st).2.user_sessions =
          some t2 := by
  intro m f t1 t2 st h
  have h1 := cleanup_lookup_none f t1 st h
  simp only [generate_response]
  rw [h1]
  exact ⟨rfl, lookupKey_setKey_self f t2 _⟩

/-- C9 witness: the first message of `"+1"` on an empty session map gets a
reply and an entry at the call timestamp. -/
theorem c9_fresh_sender_witness :
    (generate_response "hello" "+1" 0 7 ⟨[], 0⟩).1 =
        some (responseLogic (pyStrip (pyLower ("hello").toList)))
    ∧ lookupKey "+1"
        (generate_response "hello" "+1" 0 7 ⟨[], 0⟩).2.user_sessions = some 7 :=
  c9_fresh_sender "hello" "+1" 0 7 ⟨[], 0⟩ (by decide)

/-- C10: a suppressed call is not a pure no-op on the store — the sweep
runs before the duplicate check.  The calling sender's own entry is left
unchanged by every suppressed call (given the dict invariant of distinct
keys), while the concrete suppressed call below still deletes the idle
entry of sender `"b"` and advances `last_cleanup`. -/
theorem c10_suppressed_frame :
    (∀ (message from_number : String) (t1 t2 : Int) (st st2 : BotState),
        (st.user_sessions.map Prod.fst).Nodup →
        generate_response message from_number t1 t2 st = (none, st2) →
        lookupKey from_number st2.user_sessions =
          lookupKey from_number st.user_sessions)
    ∧ generate_response "hi" "a" 1000000000000 1000000000000
        ⟨[("a", 1000000000000), ("b", 999600000000)], 999699000000⟩ =
        (none, ⟨[("a", 1000000000000)], 1000000000000⟩) := by
  constructor
  · intro m f t1 t2 st st2 hnd h
    simp only [generate_response] at h
    split at h
    · rename_i last hl
      split at h
      · have hst : cleanup_old_sessions t1 st = st2 := congrArg Prod.snd h
        rw [← hst]
        by_cases hc : tdSeconds t1 st.last_cleanup > 300
        · have hcl : cleanup_old_sessions t1 st =
              ⟨st.user_sessions.filter
                  fun p => !(decide (tdSeconds t1 p.2 > 300)),
                t1⟩ := by
            rw [cleanup_old_sessions, if_pos hc]
          rw [hcl] at hl
          have h2 := lookupKey_filter_some f _ last st.user_sessions hnd hl
          rw [hcl, hl, h2]
        · have hcl : cleanup_old_sessions t1 st = st := by
            rw [cleanup_old_sessions, if_neg hc]
          rw [hcl]
      · simp at h
    · simp at h
  · decide

/-- C10 witness: a duplicate call at the stored timestamp leaves the
caller's entry untouched. -/
theorem c10_suppressed_frame_witness :
    lookupKey "a" (⟨[("a", 0)], 0⟩ : BotState).user_sessions =
      lookupKey "a" (⟨[("a", 0)], 0⟩ : BotState).user_sessions :=
  c10_suppressed_frame.1 "x" "a" 0 0 ⟨[("a", 0)], 0⟩ ⟨[("a", 0)], 0⟩
    (by decide) (by decide)

/-- C5: an inbound POST whose extracted sender or extracted body is empty
(or missing) gets HTTP 400 with the plain-text error body and an unchanged
state; when both are non-empty the handler returns status 200, never
400. -/
theorem c5_missing_fields :
    ∀ (fromField bodyField : Option String) (t1 t2 : Int) (st : BotState),
      (extractSender fromField = "" ∨ extractBody bodyField = "" →
        handle_webhook fromField bodyField t1 t2 st =
          ((HttpBody.text "Missing data", 400), st))
      ∧ (extractSender fromField ≠ "" → extractBody bodyField ≠ "" →
        (handle_webhook fromField bodyField t1 t2 st).1.2 = 200) := by
  intro f b t1 t2 st
  constructor
  · intro h
    simp only [handle_webhook]
    rw [if_pos h]
  · intro h1 h2
    simp only [handle_webhook]
    rw [if_neg (by tauto)]
    rcases hg : generate_response (extractBody b) (extractSender f) t1 t2 st
      with ⟨res, st3⟩
    cases res with
    | none => rfl
    | some r => rfl

/-- C5 witness: `From` equal to the bare marker extracts an empty sender
and yields 400; a well-formed request yields 200. -/
theorem c5_missing_fields_witness :
    handle_webhook (some "whatsapp:") (some "hello") 0 0 ⟨[], 0⟩ =
      ((HttpBody.text "Missing data", 400), ⟨[], 0⟩)
    ∧ (handle_webhook (some "whatsapp:+1") (some "hello") 0 0 ⟨[], 0⟩).1.2 = 200 :=
  ⟨(c5_missing_fields (some "whatsapp:") (some "hello") 0 0 ⟨[], 0⟩).1
      (Or.inl (by decide)),
    (c5_missing_fields (some "whatsapp:+1") (some "hello") 0 0 ⟨[], 0⟩).2
      (by decide) (by decide)⟩

/-- C6: on a well-formed inbound POST, a suppressed responder outcome is
answered with the empty reply envelope and HTTP 200 (not an error), and a
reply string is answered with the one-message envelope and HTTP 200. -/
theorem c6_envelope_wrapping :
    ∀ (fromField bodyField : Option String) (t1 t2 : Int) (st st2 : BotState),
      extractSender fromField ≠ "" → extractBody bodyField ≠ "" →
      ((generate_response (extractBody bodyField) (extractSender fromField)
            t1 t2 st = (none, st2) →
        handle_webhook fromField bodyField t1 t2 st =
          ((HttpBody.envelope [], 200), st2))
      ∧ ∀ r, generate_response (extractBody bodyField) (extractSender fromField)
            t1 t2 st = (some r, st2) →
        handle_webhook fromField bodyField t1 t2 st =
          ((HttpBody.envelope [r], 200), st2)) := by
  intro f b t1 t2 st st2 h1 h2
  constructor
  · intro hg
    simp only [handle_webhook]
    rw [if_neg (by tauto), hg]
  · intro r hg
    simp only [handle_webhook]
    rw [if_neg (by tauto), hg]

/-- C6 witness: a duplicate message gets the empty envelope with 200; a
fresh `"hello"` gets the welcome text wrapped in the envelope with 200. -/
theorem c6_envelope_wrapping_witness :
    handle_webhook (some "whatsapp:+1") (some "hello") 0 0 ⟨[("+1", 0)], 0⟩ =
      ((HttpBody.envelope [], 200), ⟨[("+1", 0)], 0⟩)
    ∧ handle_webhook (some "whatsapp:+1") (some "hello") 0 0 ⟨[], 0⟩ =
      ((HttpBody.envelope [get_welcome_message], 200), ⟨[("+1", 0)], 0⟩) :=
  ⟨(c6_envelope_wrapping (some "whatsapp:+1") (some "hello") 0 0
        ⟨[("+1", 0)], 0⟩ ⟨[("+1", 0)], 0⟩ (by decide) (by decide)).1 (by decide),
    (c6_envelope_wrapping (some "whatsapp:+1") (some "hello") 0 0
        ⟨[], 0⟩ ⟨[("+1", 0)], 0⟩ (by decide) (by decide)).2
      get_welcome_message (by decide)⟩

/-- C7 counterexample: the claim — only a leading `"whatsapp:"` prefix is
stripped and the rest of the `From` value is unchanged — is false.  For
`From = "abcwhatsapp:def"`, which does not start with the marker, the code
passes `"abcdef"` to the responder (every occurrence removed), not the
unchanged `"abcwhatsapp:def"`. -/
theorem c7_prefix_claim_counterexample :
    extractSender (some "abcwhatsapp:def") = "abcdef"
    ∧ extractSender (some "abcwhatsapp:def") ≠ "abcwhatsapp:def"
    ∧ lookupKey "abcdef"
        ((handle_webhook (some "abcwhatsapp:def") (some "hello") 0 0
            ⟨[], 0⟩).2.user_sessions) = some 0
    ∧ lookupKey "abcwhatsapp:def"
        ((handle_webhook (some "abcwhatsapp:def") (some "hello") 0 0
            ⟨[], 0⟩).2.user_sessions) = none := by
  refine ⟨by decide, by decide, by decide, by decide⟩

/-- C7 (amended): the sender passed to the responder equals the `From`
value with every occurrence of `"whatsapp:"` removed; in particular, when
the marker occurs only as a leading prefix, the sender is the bare address
after it, unchanged — and the session entry is created under that key. -/
theorem c7_marker_removal :
    ∀ (rest body : String) (t1 t2 lc : Int),
      occursIn ("whatsapp:").toList rest.toList = false →
      (extractSender (some ("whatsapp:" ++ rest)) = rest
      ∧ (rest ≠ "" → body ≠ "" →
          (handle_webhook (some ("whatsapp:" ++ rest)) (some body) t1 t2
              ⟨[], lc⟩).2.user_sessions = [(rest, t2)])) := by
  intro rest body t1 t2 lc hocc
  obtain ⟨l⟩ := rest
  have hm : ("whatsapp:").toList = 'w' :: ("hatsapp:").toList := rfl
  have hlist : pyReplaceEmpty ("whatsapp:").toList (("whatsapp:").toList ++ l)
      = l := by
    rw [hm]
    show removeAllOcc 'w' ("hatsapp:").toList
      (('w' :: ("hatsapp:").toList) ++ l) = l
    rw [removeAllOcc_append_self]
    exact removeAllOcc_of_not_occursIn 'w' _ l (by rw [← hm]; exact hocc)
  have happ : ("whatsapp:" ++ String.mk l).toList = ("whatsapp:").toList ++ l :=
    String.data_append "whatsapp:" (String.mk l)
  have hsender : extractSender (some ("whatsapp:" ++ String.mk l)) =
      String.mk l := by
    show String.mk (pyReplaceEmpty ("whatsapp:").toList
        (("whatsapp:" ++ String.mk l)).toList) = String.mk l
    rw [happ, hlist]
  refine ⟨hsender, fun hr hb => ?_⟩
  have hcl : (cleanup_old_sessions t1 ⟨[], lc⟩).user_sessions = [] := by
    rw [cleanup_old_sessions]
    split <;> rfl
  simp only [handle_webhook, extractBody, Option.getD]
  rw [hsender]
  rw [if_neg (by push_neg; exact ⟨hr, hb⟩)]
  simp only [generate_response]
  rw [hcl]
  rfl

/-- C7 witness: with `From = "whatsapp:+123"` the responder receives the
bare address `"+123"` and records the session under it. -/
theorem c7_marker_removal_witness :
    extractSender (some ("whatsapp:" ++ "+123")) = "+123"
    ∧ (handle_webhook (some ("whatsapp:" ++ "+123")) (some "hi") 0 5
        ⟨[], 0⟩).2.user_sessions = [("+123", 5)] :=
  have h := c7_marker_removal "+123" "hi" 0 5 0 (by decide)
  ⟨h.1, h.2 (by decide) (by decide)⟩
